import Mathlib

/-!
Shallow embedding of the RAIST v5 engine (src/Raistv5.py): the cosine
similarity primitive, the commitment vector store, the context assembler,
the Gokden-rule acceptance validator with its three-node consensus check,
the rhythmic drift audit and the red-code lockdown protocol.

Numeric values are modelled over the reals; Python float formatting that
only affects console text is abstracted as an injected formatter.  The
single random draw (the Beta node noise, random.random() < 0.15) is
modelled by an explicit boolean parameter recording whether the draw fired.
Module-level simulation time (time.time()) is passed as an explicit
parameter.  sys.exit(0) in the red-code protocol is modelled as a terminal
CycleOutcome value.
-/

open scoped Classical

noncomputable section

namespace Raist

/-- Embedding of cosine_similarity (src/Raistv5.py lines 16-28).
The Python truthiness test `not v1` is the emptiness test; the magnitudes
are computed with Real.sqrt. -/
def cosine_similarity (v1 v2 : List ℝ) : ℝ :=
  if v1.isEmpty ∨ v2.isEmpty ∨ v1.length ≠ v2.length then 0
  else if Real.sqrt ((v1.map fun a => a ^ 2).sum) = 0 ∨
          Real.sqrt ((v2.map fun b => b ^ 2).sum) = 0 then 0
  else ((v1.zip v2).map fun p => p.1 * p.2).sum /
        (Real.sqrt ((v1.map fun a => a ^ 2).sum) *
         Real.sqrt ((v2.map fun b => b ^ 2).sum))

lemma dot_comm : ∀ v1 v2 : List ℝ,
    ((v1.zip v2).map fun p => p.1 * p.2).sum = ((v2.zip v1).map fun p => p.1 * p.2).sum := by
  intro v1
  induction v1 with
  | nil => intro v2; cases v2 <;> simp
  | cons a as ih =>
    intro v2
    cases v2 with
    | nil => simp
    | cons b bs => simp [ih bs, mul_comm]

lemma dot_self (v : List ℝ) :
    ((v.zip v).map fun p => p.1 * p.2).sum = (v.map fun a => a ^ 2).sum := by
  induction v with
  | nil => simp
  | cons a as ih => simp [ih, sq]

lemma sum_sq_nonneg (v : List ℝ) : 0 ≤ (v.map fun a => a ^ 2).sum := by
  apply List.sum_nonneg
  intro x hx
  simp only [List.mem_map] at hx
  obtain ⟨a, -, rfl⟩ := hx
  positivity

lemma sum_sq_pos (v : List ℝ) (x : ℝ) (hx : x ∈ v) (hx0 : x ≠ 0) :
    0 < (v.map fun a => a ^ 2).sum := by
  induction v with
  | nil => cases hx
  | cons a as ih =>
    rcases List.mem_cons.mp hx with rfl | hmem
    · have h1 : 0 < x ^ 2 := by positivity
      have h2 : 0 ≤ (as.map fun a => a ^ 2).sum := sum_sq_nonneg as
      simpa using add_pos_of_pos_of_nonneg h1 h2
    · have h1 : 0 ≤ a ^ 2 := by positivity
      have h2 : 0 < (as.map fun a => a ^ 2).sum := ih hmem
      simpa using add_pos_of_nonneg_of_pos h1 h2

lemma guard_symm (v1 v2 : List ℝ) :
    (v1.isEmpty ∨ v2.isEmpty ∨ v1.length ≠ v2.length) ↔
    (v2.isEmpty ∨ v1.isEmpty ∨ v2.length ≠ v1.length) := by
  constructor
  · rintro (h | h | h)
    · exact Or.inr (Or.inl h)
    · exact Or.inl h
    · exact Or.inr (Or.inr h.symm)
  · rintro (h | h | h)
    · exact Or.inr (Or.inl h)
    · exact Or.inl h
    · exact Or.inr (Or.inr h.symm)

lemma cosine_comm (v1 v2 : List ℝ) : cosine_similarity v1 v2 = cosine_similarity v2 v1 := by
  unfold cosine_similarity
  by_cases hg : v1.isEmpty ∨ v2.isEmpty ∨ v1.length ≠ v2.length
  · rw [if_pos hg, if_pos ((guard_symm v1 v2).mp hg)]
  · rw [if_neg hg, if_neg (fun hc => hg ((guard_symm v2 v1).mp hc))]
    by_cases hm : Real.sqrt ((v1.map fun a => a ^ 2).sum) = 0 ∨
        Real.sqrt ((v2.map fun b => b ^ 2).sum) = 0
    · rw [if_pos hm, if_pos (Or.symm hm)]
    · rw [if_neg hm, if_neg (fun hc => hm (Or.symm hc))]
      rw [dot_comm, mul_comm]

lemma cosine_self (v : List ℝ) (x : ℝ) (hx : x ∈ v) (hx0 : x ≠ 0) :
    cosine_similarity v v = 1 := by
  have hne : v ≠ [] := by rintro rfl; cases hx
  have hS : 0 < (v.map fun a => a ^ 2).sum := sum_sq_pos v x hx hx0
  have hm : Real.sqrt ((v.map fun a => a ^ 2).sum) ≠ 0 :=
    Real.sqrt_ne_zero'.mpr hS
  unfold cosine_similarity
  rw [if_neg (by simp [List.isEmpty_iff, hne]), if_neg (by simp [hm]),
    dot_self, Real.mul_self_sqrt hS.le, div_self hS.ne']

/-- Embedding of one stored commitment record (the dict payload handed to
DynamicVectorStore.add_vector, src/Raistv5.py lines 143-153; the timestamp
field is stamped by add_vector itself). -/
structure StoredData where
  query : String
  commitment_text : String
  vector : List ℝ
  ai_instance : String := "CLAUD-SONNET-4.5"
  timestamp : ℝ := 0

/-- The store is the insertion-ordered dict self.vectors, modelled as an
association list without duplicate keys. -/
abbrev Store := List (String × StoredData)

/-- Python dict assignment `self.vectors[vector_id] = data`: replaces the
value in place when the key is present, appends otherwise. -/
def dictInsert (id : String) (d : StoredData) : Store → Store
  | [] => [(id, d)]
  | (k, v) :: rest => if k = id then (id, d) :: rest else (k, v) :: dictInsert id d rest

def hasKey (s : Store) (id : String) : Bool :=
  s.any fun p => p.1 == id

/-- Embedding of DynamicVectorStore.add_vector (src/Raistv5.py lines 37-41):
stamps the timestamp and writes the record into the dict.  There is no
duplicate check and no lock check in the source. -/
def add_vector (s : Store) (vector_id : String) (data : StoredData) (now : ℝ) : Store :=
  dictInsert vector_id { data with timestamp := now } s

lemma dictInsert_length_of_not_hasKey (id : String) (d : StoredData) :
    ∀ s : Store, hasKey s id = false → (dictInsert id d s).length = s.length + 1 := by
  intro s
  induction s with
  | nil => intro _; rfl
  | cons p rest ih =>
    intro h
    obtain ⟨k, v⟩ := p
    simp only [hasKey, List.any_cons, Bool.or_eq_false_iff, beq_eq_false_iff_ne, ne_eq] at h
    obtain ⟨h1, h2⟩ := h
    simp only [dictInsert, if_neg h1, List.length_cons]
    rw [ih (by simpa [hasKey] using h2)]

lemma dictInsert_length_of_hasKey (id : String) (d : StoredData) :
    ∀ s : Store, hasKey s id = true → (dictInsert id d s).length = s.length := by
  intro s
  induction s with
  | nil => intro h; simp [hasKey] at h
  | cons p rest ih =>
    intro h
    obtain ⟨k, v⟩ := p
    by_cases hk : k = id
    · simp [dictInsert, hk]
    · simp only [hasKey, List.any_cons, Bool.or_eq_true, beq_iff_eq] at h
      rcases h with h | h
      · exact absurd h hk
      · simp only [dictInsert, if_neg hk, List.length_cons]
        rw [ih (by simpa [hasKey] using h)]

lemma lookup_dictInsert (id : String) (d : StoredData) :
    ∀ s : Store, (dictInsert id d s).lookup id = some d := by
  intro s
  induction s with
  | nil => simp [dictInsert, List.lookup]
  | cons p rest ih =>
    obtain ⟨k, v⟩ := p
    by_cases hk : k = id
    · simp [dictInsert, hk, List.lookup]
    · simp only [dictInsert, if_neg hk]
      have hbeq : (id == k) = false := beq_eq_false_iff_ne.mpr (fun h => hk h.symm)
      simp [List.lookup, hbeq, ih]

/-- Embedding of one retrieved memory, the dict built by
DynamicVectorStore.extract_relevant_vectors (src/Raistv5.py lines 50-55). -/
structure Memory where
  commitment : String
  relevance : ℝ
  id : String

/-- Stable descending insertion: a later element is placed after every
earlier element whose relevance is at least as large, modelling the stable
Python list.sort(key=relevance, reverse=True). -/
def insertDesc (x : Memory) : List Memory → List Memory
  | [] => [x]
  | y :: ys => if y.relevance < x.relevance then x :: y :: ys else y :: insertDesc x ys

def sortDesc (l : List Memory) : List Memory :=
  l.foldl (fun acc x => insertDesc x acc) []

/-- Embedding of DynamicVectorStore.extract_relevant_vectors
(src/Raistv5.py lines 43-58): keeps the records whose similarity to the
query vector reaches the threshold, sorted by relevance descending. -/
def extract_relevant_vectors (s : Store) (query_vector : List ℝ) (threshold : ℝ) :
    List Memory :=
  sortDesc (s.filterMap fun p =>
    if threshold ≤ cosine_similarity query_vector p.2.vector then
      some ⟨p.2.commitment_text, cosine_similarity query_vector p.2.vector, p.1⟩
    else none)

/-- Embedding of DynamicVectorStore.get_total_system_drift_score
(src/Raistv5.py lines 60-70): 1.0 on the empty store, otherwise the
accumulated similarity against the ideal divided by the record count. -/
def get_total_system_drift_score (s : Store) (ideal_vector : List ℝ) : ℝ :=
  if s.isEmpty then 1
  else (s.foldl (fun total p => total + cosine_similarity p.2.vector ideal_vector) 0)
        / s.length

lemma foldl_add_sim (ideal : List ℝ) :
    ∀ (s : Store) (a : ℝ),
      s.foldl (fun total p => total + cosine_similarity p.2.vector ideal) a
        = a + (s.map fun p => cosine_similarity p.2.vector ideal).sum := by
  intro s
  induction s with
  | nil => intro a; simp
  | cons p rest ih => intro a; simp [ih, add_assoc]

/-- Embedding of RealTimeContextEngine.process_query (src/Raistv5.py lines
78-94).  The Python float formatting of the relevance score (console
presentation only) is abstracted as the injected formatter fmt; the
console print in the empty branch is not part of the returned string. -/
def process_query (s : Store) (user_query : String) (query_vector : List ℝ)
    (fmt : ℝ → String) : String :=
  let root_memories := extract_relevant_vectors s query_vector 0.75
  String.intercalate "\n"
    (if root_memories.isEmpty then
      ["Aktueller Benutzer-Query: " ++ user_query]
    else
      ["Aktueller Benutzer-Query: " ++ user_query,
       "\n--- Relevante AI Commitments aus den Wurzeln (AI Memory Persistence) ---"]
      ++ root_memories.map fun m =>
          "Wurzel: " ++ m.commitment ++ " (Relevanz: " ++ fmt m.relevance ++ ")")

/-- Result of one engine call: either the returned success string or the
terminal sys.exit(0) performed by the red-code protocol. -/
inductive CycleOutcome where
  | success (text : String)
  | systemExit (code : ℕ)
deriving DecidableEq

/-- Embedding of EvolutionEngine._red_code_protocol (src/Raistv5.py lines
157-168): prints an alert and calls sys.exit(0).  It touches no state at
all; in particular it sets no lock flag on the store. -/
def red_code_protocol (reason : String) : CycleOutcome :=
  CycleOutcome.systemExit 0

/-- Embedding of the engine state and configuration set up in
EvolutionEngine.__init__ (src/Raistv5.py lines 128-141).  The node list
and majority are module constants below, matching their fixed values; the
generative agent (Producer) and the console float formatter are the
injected collaborators. -/
structure Engine where
  store : Store
  commitments_count : ℕ
  cycles_since_last_audit : ℕ
  ETHICAL_IDEAL_VECTOR : List ℝ
  ALIGNMENT_THRESHOLD : ℝ
  DRIFT_THRESHOLD : ℝ
  AUDIT_RHYTHM : ℕ
  ga : String → String → String × List ℝ
  fmt : ℝ → String

def CONSENSUS_NODES : List String := ["Alpha", "Beta", "Gamma"]

def CONSENSUS_MAJORITY : ℕ := 2

/-- Embedding of EvolutionEngine._persist_commitment (src/Raistv5.py lines
143-155). -/
def persist_commitment (e : Engine) (user_query response : String)
    (new_commitment_vector : List ℝ) (now : ℝ) : Engine × String :=
  let count := e.commitments_count + 1
  let new_vector_id := "CAUSAL-V-" ++ toString count
  let store := add_vector e.store new_vector_id
    { query := user_query, commitment_text := response,
      vector := new_commitment_vector } now
  ({ e with commitments_count := count, store := store },
   "Neues AI Commitment in die Wurzeln geschrieben (ID: " ++ new_vector_id ++ ").")

/-- Embedding of EvolutionEngine._gokden_rule_validation (src/Raistv5.py
lines 170-188).  The transient Beta failure (random.random() < 0.15) is
recorded by the explicit draw result noise.  List indexing is modelled by
getD, which coincides with the raising Python indexing only when the
index is in bounds; every theorem about the validator therefore carries
hypotheses that keep the accessed indices 0, 1 and 2 in bounds (vectors
shorter than 3 raise an IndexError in the source instead). -/
def gokden_rule_validation (commitment_vector : List ℝ) (alignment_score : ℝ)
    (node_name : String) (noise : Bool) : Prop :=
  let is_k_pass : Prop :=
    if node_name = "Beta" ∧ noise = true then False
    else commitment_vector.getD 0 0 > 0.85
  let g_pass : Prop := alignment_score > 0.90
  let o_pass : Prop := commitment_vector.getD 1 0 > 0.85
  let k_pass : Prop := is_k_pass
  let d_pass : Prop := g_pass ∧ o_pass ∧ k_pass
  let e_pass : Prop := d_pass ∧ commitment_vector.getD 2 0 > 0.80
  g_pass ∧ o_pass ∧ k_pass ∧ d_pass ∧ e_pass

/-- The vote count accumulated by EvolutionEngine._simulate_consensus_check
(src/Raistv5.py lines 197-207): one Gokden validation per node. -/
def pass_votes (commitment_vector : List ℝ) (alignment_score : ℝ) (noise : Bool) : ℕ :=
  (CONSENSUS_NODES.map fun node =>
    if gokden_rule_validation commitment_vector alignment_score node noise
    then 1 else 0).sum

/-- Embedding of EvolutionEngine._simulate_consensus_check (src/Raistv5.py
lines 190-212): consensus is achieved when the vote count reaches the
2-of-3 majority. -/
def simulate_consensus_check (commitment_vector : List ℝ) (alignment_score : ℝ)
    (noise : Bool) : Prop :=
  CONSENSUS_MAJORITY ≤ pass_votes commitment_vector alignment_score noise

lemma gokden_iff (v : List ℝ) (s : ℝ) (n : String) (b : Bool) :
    gokden_rule_validation v s n b ↔
      (s > 0.90 ∧ v.getD 1 0 > 0.85 ∧
       (if n = "Beta" ∧ b = true then False else v.getD 0 0 > 0.85) ∧
       v.getD 2 0 > 0.80) := by
  unfold gokden_rule_validation
  constructor
  · rintro ⟨hg, ho, hk, -, -, he⟩
    exact ⟨hg, ho, hk, he⟩
  · rintro ⟨hg, ho, hk, he⟩
    exact ⟨hg, ho, hk, ⟨hg, ho, hk⟩, ⟨hg, ho, hk⟩, he⟩

def REANCHOR_PROMPT : String := "[RHYTHMUS-AUDIT] System-Drift-Korrektur erforderlich."

/-- Embedding of EvolutionEngine.perform_rhythmic_audit (src/Raistv5.py
lines 253-276).  The audit never invokes the consensus check; a drift
correction goes directly through _persist_commitment. -/
def perform_rhythmic_audit (e : Engine) (now : ℝ) : Engine × String :=
  if e.store.length < 5 then (e, "Rhythmus stabil. (Zu wenige Daten)")
  else
    if get_total_system_drift_score e.store e.ETHICAL_IDEAL_VECTOR < e.DRIFT_THRESHOLD then
      let result := e.ga REANCHOR_PROMPT REANCHOR_PROMPT
      let p := persist_commitment e "RHYTHMUS-AUDIT" result.1 result.2 now
      (p.1, "Rhythmus-Korrektur: " ++ p.2)
    else (e, "Rhythmus stabil.")

/-- Embedding of EvolutionEngine.evolve_self (src/Raistv5.py lines
214-251): audit check, retrieval, generation, alignment scoring, consensus
and the persist-or-red-code decision.  The reason string interpolation of
the offending vector (console text) is abstracted. -/
def evolve_self (e : Engine) (user_query : String) (query_vector : List ℝ)
    (noise : Bool) (now : ℝ) : Engine × CycleOutcome :=
  let e1 : Engine := { e with cycles_since_last_audit := e.cycles_since_last_audit + 1 }
  let audited : Engine × String :=
    if e1.AUDIT_RHYTHM ≤ e1.cycles_since_last_audit then
      let r := perform_rhythmic_audit e1 now
      ({ r.1 with cycles_since_last_audit := 0 }, r.2)
    else (e1, "")
  let e2 := audited.1
  let audit_result := audited.2
  let final_prompt := process_query e2.store user_query query_vector e2.fmt
  let result := e2.ga final_prompt user_query
  let response := result.1
  let new_commitment_vector := result.2
  let alignment_score := cosine_similarity new_commitment_vector e2.ETHICAL_IDEAL_VECTOR
  if simulate_consensus_check new_commitment_vector alignment_score noise then
    let p := persist_commitment e2 user_query response new_commitment_vector now
    (p.1, CycleOutcome.success
      ("Antwort: " ++ response ++ " | " ++ p.2 ++ " | Rhythmus-Status: " ++ audit_result))
  else
    (e2, red_code_protocol "Gokden Konsens fehlgeschlagen")

/-- Claim C7: get_total_system_drift_score returns exactly 1.0 on the
empty store, and on every non-empty store it returns the arithmetic mean
of the cosine similarity of each stored vector against the ideal. -/
theorem drift_score_spec (s : Store) (ideal : List ℝ) :
    get_total_system_drift_score ([] : Store) ideal = 1 ∧
    (s ≠ [] →
      get_total_system_drift_score s ideal
        = (s.map fun p => cosine_similarity p.2.vector ideal).sum / s.length) := by
  constructor
  · rfl
  · intro h
    unfold get_total_system_drift_score
    rw [if_neg (by simp [List.isEmpty_iff, h]), foldl_add_sim, zero_add]

def storeC7 : Store := [("V-000", { query := "q", commitment_text := "c", vector := [] })]

/-- Witness for C7: a concrete non-empty store evaluated through the
theorem. -/
theorem drift_score_spec_witness :
    get_total_system_drift_score storeC7 [1]
      = (storeC7.map fun p => cosine_similarity p.2.vector [1]).sum / storeC7.length :=
  (drift_score_spec storeC7 [1]).2 (by simp [storeC7])

/-- Claim C8: cosine_similarity returns 0.0 when either vector is empty,
when the vectors differ in length, or when either magnitude is zero; as a
total Lean function over the reals it can raise no fault on any input. -/
theorem cosine_edge_cases (v1 v2 : List ℝ) :
    ((v1 = [] ∨ v2 = [] ∨ v1.length ≠ v2.length) → cosine_similarity v1 v2 = 0) ∧
    ((Real.sqrt ((v1.map fun a => a ^ 2).sum) = 0 ∨
      Real.sqrt ((v2.map fun b => b ^ 2).sum) = 0) → cosine_similarity v1 v2 = 0) := by
  constructor
  · intro h
    unfold cosine_similarity
    rw [if_pos ?_]
    rcases h with h | h | h
    · exact Or.inl (by simp [h])
    · exact Or.inr (Or.inl (by simp [h]))
    · exact Or.inr (Or.inr h)
  · intro h
    unfold cosine_similarity
    by_cases hg : v1.isEmpty ∨ v2.isEmpty ∨ v1.length ≠ v2.length
    · rw [if_pos hg]
    · rw [if_neg hg, if_pos h]

/-- Witness for C8: the empty-vector case and the zero-magnitude case at
concrete inputs. -/
theorem cosine_edge_cases_witness :
    cosine_similarity ([] : List ℝ) [1] = 0 ∧ cosine_similarity [0] [1] = 0 :=
  ⟨(cosine_edge_cases [] [1]).1 (Or.inl rfl),
   (cosine_edge_cases [0] [1]).2 (Or.inl (by simp))⟩

/-- Claim C9: cosine_similarity is symmetric on all inputs, and equals
exactly 1.0 on every nonzero vector paired with itself. -/
theorem cosine_symm_and_self (a b v : List ℝ) (hv : ∃ x ∈ v, x ≠ 0) :
    cosine_similarity a b = cosine_similarity b a ∧ cosine_similarity v v = 1 := by
  obtain ⟨x, hx, hx0⟩ := hv
  exact ⟨cosine_comm a b, cosine_self v x hx hx0⟩

/-- Witness for C9 at concrete vectors. -/
theorem cosine_symm_and_self_witness :
    cosine_similarity [1, 2] [3] = cosine_similarity [3] [1, 2] ∧
    cosine_similarity [2] [2] = 1 :=
  cosine_symm_and_self [1, 2] [3] [2] ⟨2, by simp, by norm_num⟩

/-- Claim C2: the consensus check runs the five-gate Gokden rule once per
node over the three nodes and achieves consensus when at least 2 of the 3
votes pass; for every commitment vector and alignment score satisfying all
numeric criteria, consensus is achieved for every randomness draw, because
only the Beta node can transiently fail and Alpha and Gamma still form the
2-of-3 majority. -/
theorem consensus_robust_to_single_node_noise (v : List ℝ) (alignment_score : ℝ)
    (hg : alignment_score > 0.90) (ho : v.getD 1 0 > 0.85)
    (hk : v.getD 0 0 > 0.85) (he : v.getD 2 0 > 0.80) :
    ∀ noise : Bool, simulate_consensus_check v alignment_score noise := by
  intro noise
  have hA : gokden_rule_validation v alignment_score "Alpha" noise := by
    rw [gokden_iff]
    refine ⟨hg, ho, ?_, he⟩
    rw [if_neg (fun h => by simpa using h.1)]
    exact hk
  have hC : gokden_rule_validation v alignment_score "Gamma" noise := by
    rw [gokden_iff]
    refine ⟨hg, ho, ?_, he⟩
    rw [if_neg (fun h => by simpa using h.1)]
    exact hk
  unfold simulate_consensus_check pass_votes CONSENSUS_NODES CONSENSUS_MAJORITY
  simp only [List.map_cons, List.map_nil, List.sum_cons, List.sum_nil]
  rw [if_pos hA, if_pos hC]
  split_ifs <;> omega

/-- Witness for C2: a concrete passing vector and score, evaluated at the
draw where the Beta node does fail. -/
theorem consensus_robust_witness :
    simulate_consensus_check [0.9, 0.9, 0.9] 1 true :=
  consensus_robust_to_single_node_noise [0.9, 0.9, 0.9] 1 (by norm_num)
    (by norm_num [List.getD]) (by norm_num [List.getD]) (by norm_num [List.getD]) true

def dataAlt : StoredData := { query := "q1", commitment_text := "alt", vector := [1, 0] }

def dataNeu : StoredData := { query := "q2", commitment_text := "neu", vector := [0, 1] }

/-- Counterexample to C4 as stated: add_vector called with an id that is
already present does not fail with any DuplicateId error; it overwrites
the stored record in place, so the existing record does not stay
unchanged (its commitment text changes from "alt" to "neu"). -/
theorem add_duplicate_counterexample :
    add_vector [("A", dataAlt)] "A" dataNeu 5 = [("A", { dataNeu with timestamp := 5 })] ∧
    ({ dataNeu with timestamp := 5 } : StoredData).commitment_text ≠ dataAlt.commitment_text := by
  constructor
  · rfl
  · simp only [dataNeu, dataAlt]
    decide

/-- Claim C4 amended: for every id already present in the store, add_vector
does not fail; it keeps the store size unchanged and replaces the record
under that id with the new data, stamped with the insertion time.  The
source add_vector (src/Raistv5.py lines 37-41) performs a plain dict
assignment with no duplicate check. -/
theorem add_vector_overwrites (s : Store) (id : String) (d : StoredData) (t : ℝ)
    (h : hasKey s id = true) :
    (add_vector s id d t).length = s.length ∧
    (add_vector s id d t).lookup id = some { d with timestamp := t } :=
  ⟨dictInsert_length_of_hasKey id _ s h, lookup_dictInsert id _ s⟩

/-- Witness for the amended C4 at a concrete store. -/
theorem add_vector_overwrites_witness :
    (add_vector [("A", dataAlt)] "A" dataNeu 5).length = 1 ∧
    (add_vector [("A", dataAlt)] "A" dataNeu 5).lookup "A"
      = some { dataNeu with timestamp := 5 } :=
  add_vector_overwrites [("A", dataAlt)] "A" dataNeu 5 rfl

/-- Counterexample to C5 as stated: on a store where retrieval returns no
relevant commitments (here the empty store), the prompt returned by
process_query is exactly the bare user-query line.  The retrieval section
is silently omitted; the returned string states nothing about missing
commitments (the "Keine relevanten Wurzeln gefunden" notice at
src/Raistv5.py line 91 goes to the console only, never into the prompt). -/
theorem empty_retrieval_counterexample :
    process_query ([] : Store) "Testfrage" [1] (fun _ => "")
      = "Aktueller Benutzer-Query: Testfrage" := by
  rfl

/-- Claim C5 amended: whenever retrieval returns no relevant commitments,
the assembled prompt consists solely of the query line, with the retrieval
section silently omitted; the no-results notice is console output only and
is not part of the string handed to the Producer. -/
theorem empty_retrieval_prompt (s : Store) (q : String) (qv : List ℝ) (fmt : ℝ → String)
    (h : extract_relevant_vectors s qv 0.75 = []) :
    process_query s q qv fmt = "Aktueller Benutzer-Query: " ++ q := by
  unfold process_query
  rw [h]
  rfl

/-- Witness for the amended C5 at a concrete empty store. -/
theorem empty_retrieval_prompt_witness :
    process_query ([] : Store) "Hallo" [2] (fun _ => "")
      = "Aktueller Benutzer-Query: " ++ "Hallo" :=
  empty_retrieval_prompt [] "Hallo" [2] (fun _ => "") rfl

def storeC1 : Store :=
  [("CAUSAL-V-1", { query := "Initialisierung", commitment_text := "Erstes Commitment",
                    vector := [1, 0, 0, 0] })]

def dataC1 : StoredData :=
  { query := "Zweite Anfrage", commitment_text := "Zweites Commitment",
    vector := [0, 1, 0, 0] }

/-- Counterexample to C1 as stated: the red-code protocol does not
transition any EngineState field and installs no lock; it only performs
sys.exit(0).  The store carries no lock flag and add_vector checks none,
so an add performed after the protocol has run (possible because the demo
driver catches SystemExit, src/Raistv5.py lines 321-324) succeeds without
any SystemLocked error and changes the record count from 1 to 2. -/
theorem lockdown_counterexample :
    red_code_protocol "Gokden Konsens fehlgeschlagen" = CycleOutcome.systemExit 0 ∧
    storeC1.length = 1 ∧
    (add_vector storeC1 "CAUSAL-V-2" dataC1 0).length = 2 := by
  refine ⟨rfl, rfl, ?_⟩
  rfl

/-- Claim C1 amended: after a quorum failure the engine invokes the
red-code protocol, which merely terminates the process (sys.exit(0)); no
Running-to-Locked state transition exists, and the store add operation
checks no lock: whenever the process continues (the SystemExit being
caught), any add with a fresh id succeeds and grows the record count by
one, for any caller. -/
theorem lockdown_terminates_process_only (reason : String) (s : Store) (id : String)
    (d : StoredData) (t : ℝ) (h : hasKey s id = false) :
    red_code_protocol reason = CycleOutcome.systemExit 0 ∧
    (add_vector s id d t).length = s.length + 1 :=
  ⟨rfl, dictInsert_length_of_not_hasKey id _ s h⟩

/-- Witness for the amended C1 at a concrete store. -/
theorem lockdown_terminates_witness :
    red_code_protocol "Grund" = CycleOutcome.systemExit 0 ∧
    (add_vector storeC1 "V-NEU" dataC1 1).length = storeC1.length + 1 :=
  lockdown_terminates_process_only "Grund" storeC1 "V-NEU" dataC1 1 rfl

lemma cosine_nil_left (v : List ℝ) : cosine_similarity [] v = 0 := by
  simp [cosine_similarity]

/-- Claim C3: the rhythmic audit satisfies the three-way postcondition.
With fewer than 5 records it reports the too-few-data status and changes
nothing; with at least 5 records and average drift below the threshold it
appends exactly one record, obtained from the Producer at the fixed
re-anchoring prompt, directly through the store-append path (the audit
definition invokes no consensus check and takes no randomness draw); with
drift at or above the threshold it reports stable and changes nothing. -/
theorem perform_rhythmic_audit_postcondition (e : Engine) (now : ℝ) :
    (e.store.length < 5 →
      perform_rhythmic_audit e now = (e, "Rhythmus stabil. (Zu wenige Daten)")) ∧
    (5 ≤ e.store.length →
      get_total_system_drift_score e.store e.ETHICAL_IDEAL_VECTOR < e.DRIFT_THRESHOLD →
      ((perform_rhythmic_audit e now).1.store
          = add_vector e.store ("CAUSAL-V-" ++ toString (e.commitments_count + 1))
              { query := "RHYTHMUS-AUDIT",
                commitment_text := (e.ga REANCHOR_PROMPT REANCHOR_PROMPT).1,
                vector := (e.ga REANCHOR_PROMPT REANCHOR_PROMPT).2 } now
        ∧ (hasKey e.store ("CAUSAL-V-" ++ toString (e.commitments_count + 1)) = false →
            (perform_rhythmic_audit e now).1.store.length = e.store.length + 1))) ∧
    (5 ≤ e.store.length →
      e.DRIFT_THRESHOLD ≤ get_total_system_drift_score e.store e.ETHICAL_IDEAL_VECTOR →
      perform_rhythmic_audit e now = (e, "Rhythmus stabil.")) := by
  refine ⟨?_, ?_, ?_⟩
  · intro h
    unfold perform_rhythmic_audit
    rw [if_pos h]
  · intro h5 hd
    have heq : perform_rhythmic_audit e now
        = ((persist_commitment e "RHYTHMUS-AUDIT" (e.ga REANCHOR_PROMPT REANCHOR_PROMPT).1
              (e.ga REANCHOR_PROMPT REANCHOR_PROMPT).2 now).1,
           "Rhythmus-Korrektur: " ++ (persist_commitment e "RHYTHMUS-AUDIT"
              (e.ga REANCHOR_PROMPT REANCHOR_PROMPT).1
              (e.ga REANCHOR_PROMPT REANCHOR_PROMPT).2 now).2) := by
      unfold perform_rhythmic_audit
      rw [if_neg (by omega), if_pos hd]
    rw [heq]
    refine ⟨rfl, fun hfresh => ?_⟩
    exact dictInsert_length_of_not_hasKey _ _ _ hfresh
  · intro h5 hd
    unfold perform_rhythmic_audit
    rw [if_neg (by omega), if_neg (not_lt.mpr hd)]

def storeDrift : Store :=
  [("V-000", { query := "a", commitment_text := "c0", vector := [] }),
   ("V-001", { query := "b", commitment_text := "c1", vector := [] }),
   ("V-002", { query := "c", commitment_text := "c2", vector := [] }),
   ("V-003", { query := "d", commitment_text := "c3", vector := [] }),
   ("V-004", { query := "e", commitment_text := "c4", vector := [] })]

def gaAudit : String → String → String × List ℝ :=
  fun _ _ => ("Korrektur", [0.99, 0.99, 0.85, 0.80])

def eSmall : Engine :=
  { store := [], commitments_count := 0, cycles_since_last_audit := 0,
    ETHICAL_IDEAL_VECTOR := [1, 1, 0.8, 0.7], ALIGNMENT_THRESHOLD := 0.85,
    DRIFT_THRESHOLD := 0.70, AUDIT_RHYTHM := 3, ga := gaAudit, fmt := fun _ => "" }

def eDrift : Engine := { eSmall with store := storeDrift }

def eStable : Engine := { eSmall with store := storeDrift, DRIFT_THRESHOLD := 0 }

/-- Witness for C3: the three branches evaluated on concrete engines (an
empty store; five drifted records below threshold; the same records at or
above a zero threshold). -/
theorem perform_rhythmic_audit_witness :
    perform_rhythmic_audit eSmall 0 = (eSmall, "Rhythmus stabil. (Zu wenige Daten)") ∧
    (perform_rhythmic_audit eDrift 0).1.store.length = eDrift.store.length + 1 ∧
    perform_rhythmic_audit eStable 0 = (eStable, "Rhythmus stabil.") := by
  have hdrift : get_total_system_drift_score storeDrift [1, 1, 0.8, 0.7] = 0 := by
    simp [get_total_system_drift_score, storeDrift, cosine_nil_left]
  refine ⟨(perform_rhythmic_audit_postcondition eSmall 0).1 (by norm_num [eSmall]),
    ((perform_rhythmic_audit_postcondition eDrift 0).2.1 (by norm_num [eDrift, storeDrift])
      (by rw [show get_total_system_drift_score eDrift.store eDrift.ETHICAL_IDEAL_VECTOR
                = 0 from hdrift]
          norm_num [eDrift, eSmall])).2 (by decide),
    (perform_rhythmic_audit_postcondition eStable 0).2.2 (by norm_num [eStable, eSmall, storeDrift])
      (by rw [show get_total_system_drift_score eStable.store eStable.ETHICAL_IDEAL_VECTOR
                = 0 from hdrift]
          norm_num [eStable, eSmall])⟩

lemma audit_alignment_irrelevant (e : Engine) (x : ℝ) (now : ℝ) :
    perform_rhythmic_audit { e with ALIGNMENT_THRESHOLD := x } now
      = ({ (perform_rhythmic_audit e now).1 with ALIGNMENT_THRESHOLD := x },
         (perform_rhythmic_audit e now).2) := by
  obtain ⟨s, c, cy, iv, a, dr, ar, ga, f⟩ := e
  show perform_rhythmic_audit ⟨s, c, cy, iv, x, dr, ar, ga, f⟩ now = _
  unfold perform_rhythmic_audit persist_commitment
  dsimp only
  split_ifs <;> rfl

lemma evolve_alignment_irrelevant (e : Engine) (x : ℝ) (q : String) (qv : List ℝ)
    (b : Bool) (now : ℝ) :
    evolve_self { e with ALIGNMENT_THRESHOLD := x } q qv b now
      = ({ (evolve_self e q qv b now).1 with ALIGNMENT_THRESHOLD := x },
         (evolve_self e q qv b now).2) := by
  obtain ⟨s, c, cy, iv, a, dr, ar, ga, f⟩ := e
  show evolve_self ⟨s, c, cy, iv, x, dr, ar, ga, f⟩ q qv b now = _
  unfold evolve_self perform_rhythmic_audit persist_commitment
  dsimp only
  split_ifs <;> rfl

/-- Claim C10: the configured ALIGNMENT_THRESHOLD field is never read by
any operation (the G gate compares against the hard-coded 0.90 inside
gokden_rule_validation): two engines that differ only in this field
produce identical audit and cycle results, their states evolving in
lockstep apart from carrying the differing field value. -/
theorem alignment_threshold_never_read (e : Engine) (x : ℝ) (q : String) (qv : List ℝ)
    (b : Bool) (now : ℝ) :
    (perform_rhythmic_audit { e with ALIGNMENT_THRESHOLD := x } now).2
        = (perform_rhythmic_audit e now).2 ∧
    (perform_rhythmic_audit { e with ALIGNMENT_THRESHOLD := x } now).1
        = { (perform_rhythmic_audit e now).1 with ALIGNMENT_THRESHOLD := x } ∧
    (evolve_self { e with ALIGNMENT_THRESHOLD := x } q qv b now).2
        = (evolve_self e q qv b now).2 ∧
    (evolve_self { e with ALIGNMENT_THRESHOLD := x } q qv b now).1
        = { (evolve_self e q qv b now).1 with ALIGNMENT_THRESHOLD := x } := by
  have h1 := audit_alignment_irrelevant e x now
  have h2 := evolve_alignment_irrelevant e x q qv b now
  exact ⟨by rw [h1], by rw [h1], by rw [h2], by rw [h2]⟩

end Raist
